import Mathlib

/-!
# Verification of the art-fighting duel-session client

Shallow embedding of the client state machine of `src/App.js`:
the session snapshot held in React state, the socket event handlers
(`round-start`, `round-ended`, `receive-stroke`, `undo-confirm`,
`opponent-undo`, `opponent-clear`, `opponent-leave`), the timer effect,
the `resetRound` handler, the `DrawingCanvas` pointer capture, the
coordinate normalizer `pointerPos`, the MMR initializer, and the stroke
renderer `getSvgPath`.

Numbers held in JavaScript variables are modelled as `Int` (timer, mmr)
or `ℚ` (pointer coordinates and layout sizes).
-/

namespace ArtFighting

/-- A point in the drawing surface, as produced by `pointerPos`. -/
abbrev Point := ℚ × ℚ

/-- A stroke: the ordered list of captured points (`currStroke` finalized). -/
abbrev Stroke := List Point

/-- `const MMR_DELTA = 25` (App.js line 17). -/
def MMR_DELTA : Int := 25

/-- `const DRAW_TIME = 60` (App.js line 17). -/
def DRAW_TIME : Int := 60

/-- The `phase` state variable: `"queue" | "draw" | "result"`. -/
inductive Phase where
  | queue
  | draw
  | result
deriving DecidableEq, Repr

/-- The React state of `App` that the duel-session protocol touches
(`useState` hooks, App.js lines 185-206), together with the persisted
`localStorage` slot for `"mmr"` written by the `round-ended` handler. -/
structure Session where
  prompt : String
  timer : Int
  myStrokes : List Stroke
  opponentStrokes : List Stroke
  phase : Phase
  winner : Option String
  players : List String
  youAre : Nat
  roundActive : Bool
  mmr : Int
  mmrDelta : Int
  storedMMR : Option String
deriving DecidableEq, Repr

/-- Outbound socket messages emitted by the modelled handlers. -/
inductive OutMsg where
  | sendStroke (s : Stroke)
  | endRound
  | playAgain
deriving DecidableEq, Repr

/-- The events that mutate session state: the seven inbound socket
messages, one execution of the timer effect body (App.js lines 277-287),
the local `resetRound` click (lines 295-303), and the finalization of a
locally captured stroke (the canvas `onPointerUp` path feeding
`setMyStrokes` and `sendStroke`, lines 95-100 with 425-431). -/
inductive Event where
  | roundStart (prompt : String) (players : List String) (youAre : Nat) (timer : Int)
  | roundEnded (winner : String)
  | receiveStroke (s : Stroke)
  | undoConfirm
  | opponentUndo
  | opponentClear
  | opponentLeave
  | timerTick
  | resetRound
  | localStroke (s : Stroke)
deriving DecidableEq, Repr

/-- One step of the session state machine for local user `u`: the new
state and the socket messages emitted during the step. Each branch is
the direct transcription of the corresponding handler in App.js. -/
def stepApp (u : String) (s : Session) : Event → Session × List OutMsg
  | .roundStart p pl ya t =>
      ({ s with prompt := p, players := pl, youAre := ya, winner := none,
                myStrokes := [], opponentStrokes := [], timer := t,
                phase := .draw, roundActive := true, mmrDelta := 0 }, [])
  | .roundEnded w =>
      let delta := if w = u then MMR_DELTA else -MMR_DELTA
      ({ s with winner := some w, phase := .result, roundActive := false,
                mmrDelta := delta, mmr := s.mmr + delta,
                storedMMR := some (toString (s.mmr + delta)) }, [])
  | .receiveStroke st =>
      ({ s with opponentStrokes := s.opponentStrokes ++ [st] }, [])
  | .undoConfirm =>
      ({ s with myStrokes := s.myStrokes.dropLast }, [])
  | .opponentUndo =>
      ({ s with opponentStrokes := s.opponentStrokes.dropLast }, [])
  | .opponentClear =>
      ({ s with opponentStrokes := [] }, [])
  | .opponentLeave =>
      ({ s with players := ["You", "Opponent"], opponentStrokes := [],
                phase := .queue, roundActive := false, mmrDelta := 0 }, [])
  | .timerTick =>
      if s.roundActive = true ∧ s.phase = .draw then
        if s.timer ≤ 0 then
          ({ s with roundActive := false, phase := .result }, [.endRound])
        else
          ({ s with timer := s.timer - 1 }, [])
      else (s, [])
  | .resetRound =>
      ({ s with myStrokes := [], opponentStrokes := [], winner := none,
                phase := .queue, roundActive := false, mmrDelta := 0 }, [.playAgain])
  | .localStroke st =>
      if s.phase = .draw ∧ 2 ≤ st.length then
        ({ s with myStrokes := s.myStrokes ++ [st] }, [.sendStroke st])
      else (s, [])

/-- The state after a step, discarding emissions. -/
def nextS (u : String) (s : Session) (e : Event) : Session :=
  (stepApp u s e).1

/-- Run a list of events from a state, in arrival order. -/
def runEvents (u : String) (s : Session) : List Event → Session
  | [] => s
  | e :: es => runEvents u (nextS u s e) es

/-- Number of `Draw → Result` phase transitions along an event trace. -/
def resultTransitions (u : String) (s : Session) : List Event → Nat
  | [] => 0
  | e :: es =>
      let s' := nextS u s e
      (if s.phase = .draw ∧ s'.phase = .result then 1 else 0)
        + resultTransitions u s' es

/-! ## The MMR initializer

`useState(Number(localStorage.getItem("mmr")) || 1000)` (App.js line 187).
`Number(null) = 0`, `Number("") = 0`, `Number` of a decimal-integer
string is its value, `Number` of a non-numeric string is `NaN`;
`x || 1000` yields `1000` when `x` is falsy (`0` or `NaN`). -/

/-- A JavaScript number that is either a value or `NaN`. -/
inductive JSNum where
  | nan
  | num (v : Int)
deriving DecidableEq, Repr

/-- Digits-to-value accumulator for the decimal parser. -/
def parseDigits : List Char → Option Nat
  | [] => some 0
  | c :: cs =>
      if c.isDigit then
        match parseDigits cs with
        | some v => some ((c.toNat - '0'.toNat) * 10 ^ cs.length + v)
        | none => none
      else none

/-- `Number(s)` for the strings this program stores: the empty string is
`0`, a decimal-integer string (optionally signed) is its value, anything
else is `NaN`. -/
def jsNumberOfString (s : String) : JSNum :=
  match s.toList with
  | [] => .num 0
  | '-' :: cs =>
      match cs with
      | [] => .nan
      | _ =>
        match parseDigits cs with
        | some v => .num (-(v : Int))
        | none => .nan
  | cs =>
      match parseDigits cs with
      | some v => .num (v : Int)
      | none => .nan

/-- `Number(localStorage.getItem("mmr"))`: a missing key reads as `null`
and `Number(null) = 0`. -/
def jsNumberOfStored : Option String → JSNum
  | none => .num 0
  | some s => jsNumberOfString s

/-- `x || d`: the default replaces falsy values (`0` and `NaN`). -/
def jsOrDefault (x : JSNum) (d : Int) : Int :=
  match x with
  | .nan => d
  | .num v => if v = 0 then d else v

/-- The `mmr` initial value computed at startup (App.js line 187). -/
def initMMR (stored : Option String) : Int :=
  jsOrDefault (jsNumberOfStored stored) 1000

/-- The session state right after login, from the `useState` initial
values (App.js lines 197-206) and the stored rating. -/
def initSession (stored : Option String) : Session :=
  { prompt := ""
    timer := DRAW_TIME
    myStrokes := []
    opponentStrokes := []
    phase := .queue
    winner := none
    players := ["You", "Opponent"]
    youAre := 0
    roundActive := false
    mmr := initMMR stored
    mmrDelta := 0
    storedMMR := stored }

/-! ## Layout sizes

`SIDE_W = Math.min(430, Math.max(300, w * 0.37))` and
`SIDE_H = Math.min(530, Math.max(250, h * 0.56))` (App.js lines 182-183):
the drawing surface's width and height, recomputed from the window size. -/

/-- `SIDE_W` as a function of the window width `w`. -/
def SIDE_W (w : ℚ) : ℚ := min 430 (max 300 (w * (37 / 100)))

/-- `SIDE_H` as a function of the window height `h`. -/
def SIDE_H (h : ℚ) : ℚ := min 530 (max 250 (h * (56 / 100)))

/-! ## Coordinate normalizer -/

/-- `pointerPos` (App.js lines 75-85): map the client position of an
event into the canvas coordinate space, one axis at a time:
`((clientX - rect.left) / rect.width) * width`. `rectLeft`/`rectWidth`
come from `getBoundingClientRect()`, `width` is the prop passed to
`DrawingCanvas` (the value of `SIDE_W` at this client). -/
def pointerPos (rectLeft rectWidth width clientX : ℚ) : ℚ :=
  (clientX - rectLeft) / rectWidth * width

/-! ## Stroke capture (`DrawingCanvas`) -/

/-- The per-canvas interaction state: the in-progress `currStroke`
`useState`, the committed `strokes` prop written through `setStrokes`,
and the strokes handed to `onSendStroke`. -/
structure CanvasState where
  currStroke : Stroke
  strokes : List Stroke
  sent : List Stroke
deriving DecidableEq, Repr

/-- Pointer events delivered to the canvas, carrying the already
normalized point where one is captured. -/
inductive PtrEvent where
  | down (p : Point)
  | move (p : Point)
  | up
deriving DecidableEq, Repr

/-- One pointer event handled by `DrawingCanvas` (App.js lines 87-100):
`onPointerDown` restarts `currStroke` when enabled; `onPointerMove`
appends when enabled and a stroke is in progress; `onPointerUp` (also
bound to pointer-leave and touch-end) finalizes only when enabled and
`currStroke` has at least 2 points, appending to `strokes`, emitting the
stroke, and clearing `currStroke`. -/
def ptrStep (enabled : Bool) (c : CanvasState) : PtrEvent → CanvasState
  | .down p => if enabled = true then { c with currStroke := [p] } else c
  | .move p =>
      if enabled = true ∧ c.currStroke ≠ [] then
        { c with currStroke := c.currStroke ++ [p] }
      else c
  | .up =>
      if enabled = true ∧ 2 ≤ c.currStroke.length then
        { currStroke := [],
          strokes := c.strokes ++ [c.currStroke],
          sent := c.sent ++ [c.currStroke] }
      else c

/-- Run a list of pointer events in order. -/
def runPtr (enabled : Bool) (c : CanvasState) : List PtrEvent → CanvasState
  | [] => c
  | e :: es => runPtr enabled (ptrStep enabled c e) es

/-! ## Stroke renderer -/

/-- Modelled from the spec: the smoothing function `getStroke` of the
Stroke Renderer (the `perfect-freehand` library) is not part of src/;
4.4 describes it as a pure function from a point sequence and a fixed
smoothing profile (stroke width `size`, `thinning`, `smoothing`) to an
outline point sequence. Modelled as such a pure function: each input
point is smoothed toward its successor and expanded by half the
(thinned) stroke width on each side, the outline being the upper offsets
followed by the lower offsets in reverse. This function is the smoothing
pass: each point moved toward its successor by the smoothing factor. -/
def smoothPts (smoothing : ℚ) : List Point → List Point
  | [] => []
  | [q] => [q]
  | q :: r :: rs =>
      (q.1 + smoothing * (r.1 - q.1), q.2 + smoothing * (r.2 - q.2))
        :: smoothPts smoothing (r :: rs)

/-- Modelled from the spec (continued): the full outline of a point
sequence for the fixed smoothing profile. -/
def getStrokeModel (size thinning smoothing : ℚ) (stroke : List Point) : List Point :=
  match stroke with
  | [] => []
  | p :: ps =>
      let pts := smoothPts smoothing (p :: ps)
      let rad := size * (1 - thinning) / 2
      pts.map (fun q => (q.1, q.2 - rad)) ++ (pts.map (fun q => (q.1, q.2 + rad))).reverse

/-- Render one coordinate for the SVG path string. -/
def coordStr (q : ℚ) : String := toString q

/-- `getSvgPath` (App.js lines 42-48): empty stroke renders as the empty
string; otherwise the outline of `getStroke(stroke, \x7bsize: 4,
thinning: 0.6, smoothing: 0.8\x7d)` is folded into an `M`/`L` path
string (empty outline again renders as the empty string). -/
def getSvgPath (stroke : List Point) : String :=
  if stroke.length = 0 then ""
  else
    let pts := getStrokeModel 4 (6 / 10) (8 / 10) stroke
    if pts.length = 0 then ""
    else
      "M " ++ String.intercalate " "
        ((List.range pts.length).zip pts |>.map
          (fun ip =>
            if ip.1 = 0 then coordStr ip.2.1 ++ " " ++ coordStr ip.2.2
            else "L " ++ coordStr ip.2.1 ++ " " ++ coordStr ip.2.2))

/-- The path rendered for one committed stroke on the local participant's
canvas (the `strokes.map` over `myStrokes`, App.js lines 137-147 with the
instantiation at lines 425-433). -/
def renderLocalStrokePath (stroke : List Point) : String := getSvgPath stroke

/-- The path rendered for one committed stroke on the opponent's canvas
(the same `strokes.map`, instantiated over `opponentStrokes` at App.js
lines 447-454). -/
def renderRemoteStrokePath (stroke : List Point) : String := getSvgPath stroke

/-! ## Concrete states used by witnesses -/

/-- A session in mid-draw: `round-start` processed with a 60 second
timer. -/
def sDraw : Session :=
  runEvents "Ana" (initSession none) [.roundStart "mountain" ["Ana", "Bo"] 0 60]

/-- A session in mid-draw whose timer has reached zero (the round was
started with `timer = 0`), so the next timer-effect run takes the
local-timeout path. -/
def sExpired : Session :=
  runEvents "Ana" (initSession none) [.roundStart "mountain" ["Ana", "Bo"] 0 0]

/-!
# Theorems
-/

/-- C1: for any interleaving of one local timer expiry (a timer-effect
run with `timer ≤ 0`) and one authoritative `round-ended` message within
a round (`phase = draw`, `roundActive`), the session transitions
`Draw → Result` exactly once and the rating delta is applied exactly
once; and a countdown tick processed after `round-ended` has set the
phase to `result` changes nothing and emits nothing, because the local
timeout path acts only when `roundActive` is true and the phase is
`draw`. -/
theorem c1_single_round_end (u w : String) (s : Session)
    (hphase : s.phase = .draw) (hactive : s.roundActive = true) (htimer : s.timer ≤ 0) :
    resultTransitions u s [.timerTick, .roundEnded w] = 1 ∧
    resultTransitions u s [.roundEnded w, .timerTick] = 1 ∧
    (runEvents u s [.timerTick, .roundEnded w]).mmr
        = s.mmr + (if w = u then MMR_DELTA else -MMR_DELTA) ∧
    (runEvents u s [.roundEnded w, .timerTick]).mmr
        = s.mmr + (if w = u then MMR_DELTA else -MMR_DELTA) ∧
    stepApp u (nextS u s (.roundEnded w)) .timerTick = (nextS u s (.roundEnded w), []) := by
  simp [resultTransitions, runEvents, nextS, stepApp, hphase, hactive, htimer]

/-- Witness for C1 at the concrete expired-timer session. -/
theorem c1_single_round_end_witness :
    sExpired.phase = .draw ∧ sExpired.roundActive = true ∧ sExpired.timer ≤ 0 ∧
    resultTransitions "Ana" sExpired [.timerTick, .roundEnded "Ana"] = 1 ∧
    resultTransitions "Ana" sExpired [.roundEnded "Ana", .timerTick] = 1 :=
  ⟨by decide, by decide, by decide,
   (c1_single_round_end "Ana" "Ana" sExpired (by decide) (by decide) (by decide)).1,
   (c1_single_round_end "Ana" "Ana" sExpired (by decide) (by decide) (by decide)).2.1⟩

/-- C2 counterexample: the claimed equivalence `winner ≠ none ↔ phase =
result` fails in two reachable states: after a local timeout (reached
with a `round-start` carrying `timer = 0` followed by one timer-effect
run) the phase is `result` but `winner` is still `none`; and after
`round-ended` followed by `opponent-leave` the phase is `queue` but
`winner` is still set. -/
theorem c2_winner_iff_result_cex :
    ¬(((runEvents "Ana" (initSession none)
        [.roundStart "p" ["Ana", "Bo"] 0 0, .timerTick]).winner ≠ none) ↔
      (runEvents "Ana" (initSession none)
        [.roundStart "p" ["Ana", "Bo"] 0 0, .timerTick]).phase = .result) ∧
    ¬(((runEvents "Ana" (initSession none)
        [.roundStart "p" ["Ana", "Bo"] 0 60, .roundEnded "Ana", .opponentLeave]).winner ≠ none) ↔
      (runEvents "Ana" (initSession none)
        [.roundStart "p" ["Ana", "Bo"] 0 60, .roundEnded "Ana", .opponentLeave]).phase
        = .result) := by
  decide

/-- Preservation of the draw-has-no-winner invariant by each event. -/
theorem drawNoWinner_step (u : String) (s : Session) (e : Event)
    (h : s.phase = .draw → s.winner = none) :
    (nextS u s e).phase = .draw → (nextS u s e).winner = none := by
  cases e <;> simp only [nextS, stepApp] <;> (try split_ifs) <;> simp_all

/-- The draw-has-no-winner invariant holds along any event trace. -/
theorem runEvents_drawNoWinner (u : String) (es : List Event) (s : Session)
    (h : s.phase = .draw → s.winner = none) :
    (runEvents u s es).phase = .draw → (runEvents u s es).winner = none := by
  induction es generalizing s with
  | nil => exact h
  | cons e es ih => exact ih (nextS u s e) (drawNoWinner_step u s e h)

/-- C2 amended: the equivalence fails (see the counterexample), but in
every reachable session state `phase = draw` implies `winner = none`:
`winner` can be non-null only in `result` (set by `round-ended`) or in
`queue` (retained across `opponent-leave`), and `phase = result` with
`winner = none` is reachable through the local timeout. -/
theorem c2_winner_iff_result_amended (u : String) (stored : Option String)
    (es : List Event) :
    (runEvents u (initSession stored) es).phase = .draw →
    (runEvents u (initSession stored) es).winner = none :=
  runEvents_drawNoWinner u es (initSession stored) (by simp [initSession])

/-- Witness for the amended C2 on a state actually in the draw phase. -/
theorem c2_winner_iff_result_amended_witness :
    (runEvents "Ana" (initSession none) [.roundStart "p" ["Ana", "Bo"] 0 60]).phase = .draw ∧
    (runEvents "Ana" (initSession none) [.roundStart "p" ["Ana", "Bo"] 0 60]).winner = none :=
  ⟨by decide,
   c2_winner_iff_result_amended "Ana" none [.roundStart "p" ["Ana", "Bo"] 0 60] (by decide)⟩

/-- C3 counterexample: a `Result → Queue` transition via
`opponent-leave` (after a round in which the local participant committed
one stroke) leaves `myStrokes` non-empty and `winner` non-null. -/
theorem c3_phase_reset_cex :
    (runEvents "Ana" (initSession none)
      [.roundStart "p" ["Ana", "Bo"] 0 60, .localStroke [(1, 1), (2, 2)],
       .roundEnded "Ana"]).phase = .result ∧
    (runEvents "Ana" (initSession none)
      [.roundStart "p" ["Ana", "Bo"] 0 60, .localStroke [(1, 1), (2, 2)],
       .roundEnded "Ana", .opponentLeave]).phase = .queue ∧
    (runEvents "Ana" (initSession none)
      [.roundStart "p" ["Ana", "Bo"] 0 60, .localStroke [(1, 1), (2, 2)],
       .roundEnded "Ana", .opponentLeave]).myStrokes.length = 1 ∧
    (runEvents "Ana" (initSession none)
      [.roundStart "p" ["Ana", "Bo"] 0 60, .localStroke [(1, 1), (2, 2)],
       .roundEnded "Ana", .opponentLeave]).winner = some "Ana" := by
  decide

/-- C3 amended: after `Result → Queue` via the local play-again action
(`resetRound`) `myStrokes`, `opponentStrokes` and `winner` are all
empty/null; via `opponent-leave` only `opponentStrokes` is cleared,
while `myStrokes` and `winner` are retained and are cleared only by the
next `round-start`. -/
theorem c3_phase_reset_amended (u : String) (s : Session) (p : String)
    (pl : List String) (ya : Nat) (t : Int) :
    (nextS u s .resetRound).myStrokes = [] ∧
    (nextS u s .resetRound).opponentStrokes = [] ∧
    (nextS u s .resetRound).winner = none ∧
    (nextS u s .opponentLeave).opponentStrokes = [] ∧
    (nextS u s .opponentLeave).myStrokes = s.myStrokes ∧
    (nextS u s .opponentLeave).winner = s.winner ∧
    (nextS u s (.roundStart p pl ya t)).myStrokes = [] ∧
    (nextS u s (.roundStart p pl ya t)).opponentStrokes = [] ∧
    (nextS u s (.roundStart p pl ya t)).winner = none := by
  simp [nextS, stepApp]

/-- C4 counterexample: the `round-ended` handler has no idempotency
guard, so a duplicated `round-ended` delivery applies the rating delta a
second time: two deliveries of `round-ended (winner = "Ana")` move the
rating from 1000 to 1050, not to 1000 + 25. -/
theorem c4_rating_once_cex :
    (runEvents "Ana" (initSession none)
      [.roundStart "p" ["Ana", "Bo"] 0 60, .roundEnded "Ana", .roundEnded "Ana"]).mmr
      = 1050 ∧
    (initSession none).mmr = 1000 ∧ MMR_DELTA = 25 ∧ (1050 : Int) ≠ 1000 + 25 := by
  decide

/-- C4 amended: on every inbound `round-ended` delivery the rating
changes by exactly `+MMR_DELTA` when the declared winner equals the
local username and by `-MMR_DELTA` otherwise, the updated value is
persisted to storage, and the handler also sets `winner` and the
`result` phase — but the handler runs unguarded on each delivery, so a
duplicated delivery applies a second delta. -/
theorem c4_rating_once_amended (u w : String) (s : Session) :
    (nextS u s (.roundEnded w)).mmr
      = s.mmr + (if w = u then MMR_DELTA else -MMR_DELTA) ∧
    (nextS u s (.roundEnded w)).storedMMR
      = some (toString (s.mmr + (if w = u then MMR_DELTA else -MMR_DELTA))) ∧
    (nextS u s (.roundEnded w)).winner = some w ∧
    (nextS u s (.roundEnded w)).phase = .result ∧
    (nextS u s (.roundEnded w)).mmrDelta = (if w = u then MMR_DELTA else -MMR_DELTA) := by
  simp [nextS, stepApp]

/-- C5: `undo-confirm` removes exactly the most recently appended stroke
of `myStrokes` and `opponent-undo` exactly the last of
`opponentStrokes`, each leaving the other list and the remaining
elements unchanged (`dropLast` of a list ending in `x` is the unchanged
front, `dropLast` of the empty list is the empty list: the no-op
case). -/
theorem c5_undo_last_only (u : String) (s : Session) (front : List Stroke) (x : Stroke) :
    (nextS u s .undoConfirm).myStrokes = s.myStrokes.dropLast ∧
    (nextS u s .opponentUndo).opponentStrokes = s.opponentStrokes.dropLast ∧
    (nextS u s .undoConfirm).opponentStrokes = s.opponentStrokes ∧
    (nextS u s .opponentUndo).myStrokes = s.myStrokes ∧
    (front ++ [x]).dropLast = front ∧
    (([] : List Stroke)).dropLast = [] := by
  simp [nextS, stepApp]

/-- C6 counterexample: a pointer-up on an enabled canvas whose
in-progress stroke has a single point leaves the canvas state exactly as
it was — in particular the in-progress stroke is retained, not
dropped. -/
theorem c6_short_stroke_cex :
    ptrStep true { currStroke := [(1, 1)], strokes := [], sent := [] } .up
      = { currStroke := [(1, 1)], strokes := [], sent := [] } ∧
    ({ currStroke := [(1, 1)], strokes := [], sent := [] } : CanvasState).currStroke ≠ [] := by
  constructor
  · simp [ptrStep]
  · simp

/-- C6 amended: a pointer-up whose in-progress stroke has fewer than 2
points is a complete no-op: the stroke is never appended to the
committed strokes, never handed to the relay, and the in-progress stroke
is retained unchanged rather than dropped. -/
theorem c6_short_stroke_amended (c : CanvasState) (h : c.currStroke.length < 2) :
    ptrStep true c .up = c ∧
    (ptrStep true c .up).strokes = c.strokes ∧
    (ptrStep true c .up).sent = c.sent ∧
    (ptrStep true c .up).currStroke = c.currStroke := by
  have hn : ¬(2 ≤ c.currStroke.length) := Nat.not_le.mpr h
  simp [ptrStep, hn]

/-- Witness for the amended C6 on a one-point in-progress stroke. -/
theorem c6_short_stroke_amended_witness :
    ([((1 : ℚ), (1 : ℚ))] : Stroke).length < 2 ∧
    (ptrStep true { currStroke := [(1, 1)], strokes := [], sent := [] } .up
       = { currStroke := [(1, 1)], strokes := [], sent := [] } ∧
     (ptrStep true { currStroke := [(1, 1)], strokes := [], sent := [] } .up).strokes = [] ∧
     (ptrStep true { currStroke := [(1, 1)], strokes := [], sent := [] } .up).sent = [] ∧
     (ptrStep true { currStroke := [(1, 1)], strokes := [], sent := [] } .up).currStroke
       = [(1, 1)]) :=
  ⟨by decide,
   c6_short_stroke_amended { currStroke := [(1, 1)], strokes := [], sent := [] } (by decide)⟩

/-- C7 counterexample: the width factor of the normalizer is `SIDE_W`,
a function of the window width, not a fixed constant: windows of widths
800 and 1100 give surfaces of widths 300 and 407, and the same relative
position (the horizontal midpoint of each surface) maps to different
logical coordinates on the two devices. -/
theorem c7_normalizer_cex :
    SIDE_W 800 = 300 ∧ SIDE_W 1100 = 407 ∧
    (150 - 0) / SIDE_W 800 = (407 / 2 - 0) / SIDE_W 1100 ∧
    pointerPos 0 (SIDE_W 800) (SIDE_W 800) 150
      ≠ pointerPos 0 (SIDE_W 1100) (SIDE_W 1100) (407 / 2) := by
  norm_num [SIDE_W, pointerPos]

/-- Beyond 43000/37 px of window width, `SIDE_W` clamps to 430. -/
theorem SIDE_W_clamped (w : ℚ) (h : 43000 / 37 ≤ w) : SIDE_W w = 430 := by
  have hx : (430 : ℚ) ≤ w * (37 / 100) := by linarith
  unfold SIDE_W
  rw [max_eq_right (le_trans (by norm_num) hx), min_eq_left hx]

/-- C7 amended: the normalizer computes
`(clientX - rect.left) / rect.width * width`, so for a fixed `width`
parameter the output depends only on the relative position within the
surface — independent of the surface's on-screen size; but `width` is
`SIDE_W`, a function of the window width rather than a fixed constant,
so two devices agree on the logical coordinates of corresponding
positions only when their `SIDE_W` values coincide — for instance when
both windows are at least 43000/37 px wide, where `SIDE_W` clamps to
430. -/
theorem c7_normalizer_amended (rl1 rw1 cx1 rl2 rw2 cx2 W w1 w2 : ℚ)
    (h : (cx1 - rl1) / rw1 = (cx2 - rl2) / rw2)
    (h1 : 43000 / 37 ≤ w1) (h2 : 43000 / 37 ≤ w2) :
    pointerPos rl1 rw1 W cx1 = pointerPos rl2 rw2 W cx2 ∧
    SIDE_W w1 = SIDE_W w2 ∧
    pointerPos rl1 rw1 (SIDE_W w1) cx1 = pointerPos rl2 rw2 (SIDE_W w2) cx2 := by
  refine ⟨?_, ?_, ?_⟩
  · unfold pointerPos; rw [h]
  · rw [SIDE_W_clamped w1 h1, SIDE_W_clamped w2 h2]
  · rw [SIDE_W_clamped w1 h1, SIDE_W_clamped w2 h2]
    unfold pointerPos; rw [h]

/-- Witness for the amended C7: two surfaces of on-screen widths 430 and
860, at corresponding positions, on windows wide enough to clamp
`SIDE_W`. -/
theorem c7_normalizer_amended_witness :
    ((215 - 0) / (430 : ℚ) = (440 - 10) / 860) ∧
    ((43000 / 37 : ℚ) ≤ 1200) ∧ ((43000 / 37 : ℚ) ≤ 2000) ∧
    (pointerPos 0 430 430 215 = pointerPos 10 860 430 440 ∧
     SIDE_W 1200 = SIDE_W 2000 ∧
     pointerPos 0 430 (SIDE_W 1200) 215 = pointerPos 10 860 (SIDE_W 2000) 440) :=
  ⟨by norm_num, by norm_num, by norm_num,
   c7_normalizer_amended 0 430 215 10 860 440 430 1200 2000
     (by norm_num) (by norm_num) (by norm_num)⟩

/-- C8: the stroke renderer is deterministic and origin-independent: the
path rendered for a point sequence on the local canvas is identical to
the path rendered for the same sequence on the opponent's canvas, and a
stroke finalized locally (appended to `myStrokes` and emitted as a
`send-stroke`) renders, after being received verbatim on the other
client (appended to `opponentStrokes`), to the identical outline path
string. -/
theorem c8_renderer_deterministic (u1 u2 : String) (sA sB : Session) (st : Stroke)
    (hA : sA.phase = .draw) (hlen : 2 ≤ st.length) :
    (∀ pts : List Point, renderLocalStrokePath pts = renderRemoteStrokePath pts) ∧
    ((nextS u1 sA (.localStroke st)).myStrokes.getLast? = some st) ∧
    ((stepApp u1 sA (.localStroke st)).2 = [.sendStroke st]) ∧
    ((nextS u2 sB (.receiveStroke st)).opponentStrokes.getLast? = some st) ∧
    ((nextS u1 sA (.localStroke st)).myStrokes.getLast?.map renderLocalStrokePath
      = (nextS u2 sB (.receiveStroke st)).opponentStrokes.getLast?.map
          renderRemoteStrokePath) := by
  refine ⟨fun _ => rfl, ?_, ?_, ?_, ?_⟩ <;>
    simp [nextS, stepApp, hA, hlen, renderLocalStrokePath, renderRemoteStrokePath]

/-- Witness for C8 on a concrete two-point stroke captured in
mid-draw. -/
theorem c8_renderer_deterministic_witness :
    sDraw.phase = .draw ∧ (2 ≤ ([(1, 1), (2, 2)] : Stroke).length) ∧
    ((nextS "Ana" sDraw (.localStroke [(1, 1), (2, 2)])).myStrokes.getLast?.map
        renderLocalStrokePath
      = (nextS "Bo" (initSession none)
          (.receiveStroke [(1, 1), (2, 2)])).opponentStrokes.getLast?.map
          renderRemoteStrokePath) :=
  ⟨by decide, by decide,
   (c8_renderer_deterministic "Ana" "Bo" sDraw (initSession none) [(1, 1), (2, 2)]
     (by decide) (by decide)).2.2.2.2⟩

/-- C9: after a pointer-up with a one-point in-progress stroke the
stroke is retained; a subsequent pointer-move appends to it without any
new pointer-down, and a later pointer-up finalizes the two-point stroke
into the committed list and relays it. -/
theorem c9_retained_stroke_finalizable (c : CanvasState) (p q : Point)
    (h : c.currStroke = [p]) :
    ptrStep true c .up = c ∧
    (ptrStep true c (.move q)).currStroke = [p, q] ∧
    runPtr true c [.up, .move q, .up]
      = { currStroke := [], strokes := c.strokes ++ [[p, q]],
          sent := c.sent ++ [[p, q]] } := by
  simp [runPtr, ptrStep, h]

/-- Witness for C9 on a concrete one-point in-progress stroke. -/
theorem c9_retained_stroke_finalizable_witness :
    ({ currStroke := [(1, 1)], strokes := [], sent := [] } : CanvasState).currStroke
      = [((1 : ℚ), (1 : ℚ))] ∧
    (ptrStep true { currStroke := [(1, 1)], strokes := [], sent := [] } .up
       = { currStroke := [(1, 1)], strokes := [], sent := [] } ∧
     (ptrStep true { currStroke := [(1, 1)], strokes := [], sent := [] }
        (.move (2, 2))).currStroke = [(1, 1), (2, 2)] ∧
     runPtr true { currStroke := [(1, 1)], strokes := [], sent := [] }
        [.up, .move (2, 2), .up]
       = { currStroke := [], strokes := [[(1, 1), (2, 2)]], sent := [[(1, 1), (2, 2)]] }) :=
  ⟨rfl,
   c9_retained_stroke_finalizable
     { currStroke := [(1, 1)], strokes := [], sent := [] } (1, 1) (2, 2) rfl⟩

/-- C10: the startup rating initializer reads `Number(stored) || 1000`,
so a stored `"0"`, a missing value, a non-numeric string and the empty
string all read back as 1000 while other stored integers read back as
themselves; in particular a rating that reaches 0 during play (25 minus
the 25-point loss delta, persisted as `"0"`) does not survive a restart
as 0. -/
theorem c10_zero_rating_reset :
    initMMR (some "0") = 1000 ∧
    initMMR none = 1000 ∧
    initMMR (some "abc") = 1000 ∧
    initMMR (some "") = 1000 ∧
    initMMR (some "975") = 975 ∧
    initMMR (some "-50") = -50 ∧
    (runEvents "Ana" (initSession (some "25"))
      [.roundStart "p" ["Ana", "Bo"] 0 60, .roundEnded "Bo"]).mmr = 0 ∧
    (runEvents "Ana" (initSession (some "25"))
      [.roundStart "p" ["Ana", "Bo"] 0 60, .roundEnded "Bo"]).storedMMR = some "0" ∧
    initMMR (some "0") ≠ 0 := by
  decide

end ArtFighting
